import Mathlib

/-!
Shallow embedding of dsub's dstat command (dsub/commands/dstat.py):
the task projection (prepare_row), the output formatters, and the
poll loop (dstat_job_producer), together with theorems about them.
-/

set_option autoImplicit false
set_option maxRecDepth 8000

namespace Dstat

/-- A Python value as it occurs in dstat task fields: None, a string, or a
string-to-string mapping (used for inputs, outputs, envs and labels). -/
inductive Value where
  | none
  | str (s : String)
  | dict (entries : List (String × String))
  deriving DecidableEq

/-- Python truthiness of the values above: None is falsy, a string is truthy
iff nonempty, a mapping is truthy iff nonempty. -/
def Value.truthy : Value → Bool
  | Value.none => false
  | Value.str s => !(s == "")
  | Value.dict entries => !entries.isEmpty

/-- A row of projected output: an association list from field key to value.
The source builds rows as plain Python 2 dicts, which promise only membership
and lookup, not a usable iteration order: the list here records the sequence
of insertions, and only its membership and lookup content is relied upon. -/
abbrev Row := List (String × Value)

/-- A provider task handle, per the provider interface consumed by dstat:
an association list of fields backing get_field, and the provider-native
mapping returned by raw_task_data. -/
structure Task where
  fields : List (String × Value)
  raw : List (String × Value)

/-- task.get_field(key, default): the task's field value when present,
otherwise the supplied default. -/
def Task.get_field (t : Task) (key : String) (default : Value) : Value :=
  match t.fields.lookup key with
  | some v => v
  | Option.none => default

/-- task.raw_task_data(): the provider-native mapping. -/
def Task.raw_task_data (t : Task) : List (String × Value) := t.raw

/-- One entry of a column list in prepare_row (the row_spec namedtuple):
field key, whether the column is optional, and its default value. -/
structure RowSpec where
  key : String
  optional : Bool
  default_value : Value
  deriving DecidableEq

/-- The default_columns list of prepare_row. -/
def default_columns : List RowSpec :=
  [⟨"job-name", false, Value.none⟩,
   ⟨"task-id", true, Value.none⟩,
   ⟨"last-update", false, Value.none⟩]

/-- The short_columns list of prepare_row. -/
def short_columns : List RowSpec :=
  default_columns ++ [⟨"status-message", false, Value.none⟩]

/-- The full_columns list of prepare_row. -/
def full_columns : List RowSpec :=
  default_columns ++
  [⟨"job-id", false, Value.none⟩,
   ⟨"user-id", false, Value.none⟩,
   ⟨"status", false, Value.none⟩,
   ⟨"status-detail", false, Value.none⟩,
   ⟨"create-time", false, Value.none⟩,
   ⟨"end-time", false, Value.str "NA"⟩,
   ⟨"internal-id", false, Value.none⟩,
   ⟨"logging", false, Value.none⟩,
   ⟨"inputs", false, Value.dict []⟩,
   ⟨"outputs", false, Value.dict []⟩,
   ⟨"envs", false, Value.dict []⟩,
   ⟨"labels", false, Value.dict []⟩]

/-- The active column set of prepare_row for a verbosity flag. -/
def activeColumns (full : Bool) : List RowSpec :=
  if full then full_columns else short_columns

/-- The body of the prepare_row loop for one column: the insertion performed
when the column is not optional, or its resolved value is truthy. -/
def includeCol (task : Task) (col : RowSpec) : Option (String × Value) :=
  let value := task.get_field col.key col.default_value
  if !col.optional || value.truthy then some (col.key, value) else Option.none

/-- prepare_row(task, full): the projected row, built by inserting each
included column of the active column set in declaration order. -/
def prepare_row (task : Task) (full : Bool) : Row :=
  (activeColumns full).filterMap (includeCol task)

namespace TextOutput

/-- TextOutput._MAX_ERROR_MESSAGE_LENGTH. -/
def MAX_ERROR_MESSAGE_LENGTH : Nat := 30

/-- TextOutput.trim_display_field(value, max_length): a value for display;
a falsy value becomes the empty string, and a value longer than max_length
is cut to max_length - 3 characters plus an ellipsis. -/
def trim_display_field (value : String) (max_length : Nat) : String :=
  if value = "" then ""
  else if value.length > max_length then value.take (max_length - 3) ++ "..."
  else value

/-- TextOutput.format_status(status): the status unchanged in full mode,
otherwise trimmed to _MAX_ERROR_MESSAGE_LENGTH. A falsy value becomes the
empty string (the `if not value` branch of trim_display_field); the status
value in a row is a string or None. -/
def format_status (full : Bool) (v : Value) : Value :=
  if full then v
  else
    match v with
    | Value.str s => Value.str (trim_display_field s MAX_ERROR_MESSAGE_LENGTH)
    | v => if v.truthy then v else Value.str ""

/-- TextOutput.format_inputs_outputs(values): comma-delimited key=value
pairs sorted by key. The source iterates sorted(values.iteritems()); a
non-mapping value is outside its domain and is kept unchanged here. -/
def format_inputs_outputs (v : Value) : Value :=
  match v with
  | Value.dict entries =>
      Value.str (String.intercalate ", "
        ((entries.mergeSort (fun a b => !(decide (b.1 < a.1)))).map
          (fun kv => kv.1 ++ "=" ++ kv.2)))
  | v => v

/-- The fixed ordered column map of TextOutput.prepare_output: internal field
key, display label, and the optional transformation. -/
def column_map (full : Bool) : List (String × String × Option (Value → Value)) :=
  [("job-id", "Job ID", Option.none),
   ("job-name", "Job Name", Option.none),
   ("task-id", "Task", Option.none),
   ("status-message", "Status", some (format_status full)),
   ("status-detail", "Status-details", Option.none),
   ("last-update", "Last Update", Option.none),
   ("create-time", "Created", Option.none),
   ("end-time", "Ended", Option.none),
   ("user-id", "User", Option.none),
   ("internal-id", "Internal ID", Option.none),
   ("logging", "Logging", Option.none),
   ("inputs", "Inputs", some format_inputs_outputs),
   ("outputs", "Outputs", some format_inputs_outputs)]

/-- TextOutput.prepare_output(row): remap row keys to display labels in the
fixed column_map order, applying each column transformation and skipping
fields absent from the row. -/
def prepare_output (full : Bool) (row : Row) : Row :=
  (column_map full).filterMap (fun col =>
    match row.lookup col.1 with
    | some v =>
        match col.2.2 with
        | some format_fn => some (col.2.1, format_fn v)
        | Option.none => some (col.2.1, v)
    | Option.none => Option.none)

end TextOutput

/-- Scalar style chosen by the YAML string presenter: the literal block
style, or the default style. -/
inductive ScalarStyle where
  | literal
  | plain
  deriving DecidableEq

/-- A represented YAML scalar: its tag, its text, and its style. -/
structure Scalar where
  tag : String
  text : String
  style : ScalarStyle
  deriving DecidableEq

/-- The newline character. -/
def newlineChar : Char := Char.ofNat 10

namespace YamlOutput

/-- YamlOutput.string_presenter: a string containing an embedded newline is
represented as a scalar with the literal block style; any other string is
represented with the default style. -/
def string_presenter (data : String) : Scalar :=
  if data.contains newlineChar then
    ⟨"tag:yaml.org,2002:str", data, ScalarStyle.literal⟩
  else
    ⟨"tag:yaml.org,2002:str", data, ScalarStyle.plain⟩

end YamlOutput

/-- A batch element produced by dstat_job_producer: the provider's raw task
data under raw_format, otherwise the projected row from prepare_row. -/
inductive FormattedTask where
  | raw (data : List (String × Value))
  | row (r : Row)
  deriving DecidableEq

/-- The per-task formatting step of the producer loop. -/
def formatTask (raw_format full_output : Bool) (task : Task) : FormattedTask :=
  if raw_format then FormattedTask.raw task.raw_task_data
  else FormattedTask.row (prepare_row task full_output)

/-- Whether any task of a batch reports task-status RUNNING: the loop's
some_job_running flag after processing the batch. -/
def someJobRunning (tasks : List Task) : Bool :=
  tasks.any (fun task => task.get_field "task-status" Value.none == Value.str "RUNNING")

/-- dstat_job_producer: the poll loop. The provider is modelled as the
sequence of its lookup_job_tasks results, indexed by poll cycle (each call is
made with the same filters). The fuel argument bounds the number of cycles
simulated, and the result is the list of yielded batches: after yielding, the
loop repeats exactly when poll_interval is truthy and some job is RUNNING. -/
def dstat_job_producer (provider : Nat → List Task) (full_output : Bool)
    (poll_interval : Nat) (raw_format : Bool) : Nat → Nat → List (List FormattedTask)
  | 0, _ => []
  | fuel + 1, cycle =>
    let tasks := provider cycle
    let formatted_tasks := tasks.map (formatTask raw_format full_output)
    formatted_tasks ::
      (if (poll_interval != 0) && someJobRunning tasks then
        dstat_job_producer provider full_output poll_interval raw_format fuel (cycle + 1)
      else [])

/-- The render loop of main over the producer's batches: the list of tables
passed to print_table, in order. For each batch, for each row, main builds a
fresh single-element table from prepare_output and prints it. -/
def main_printed_tables (prepare : Row → Row) : List (List Row) → List (List Row)
  | [] => []
  | tasks :: rest =>
      tasks.map (fun row => [prepare row]) ++ main_printed_tables prepare rest

/-- A stub task reporting RUNNING. -/
def running_task : Task :=
  ⟨[("job-id", Value.str "job-1"), ("task-status", Value.str "RUNNING")],
   [("job-id", Value.str "job-1"), ("task-status", Value.str "RUNNING")]⟩

/-- The same job reporting SUCCESS. -/
def success_task : Task :=
  ⟨[("job-id", Value.str "job-1"), ("task-status", Value.str "SUCCESS")],
   [("job-id", Value.str "job-1"), ("task-status", Value.str "SUCCESS")]⟩

/-- Provider stub: one RUNNING task on the first cycle, one SUCCESS task for
the same job on the second cycle, nothing afterwards. -/
def two_cycle_stub : Nat → List Task :=
  fun cycle =>
    if cycle = 0 then [running_task]
    else if cycle = 1 then [success_task]
    else []

/-- A 31-character status-detail text. -/
def long_detail : String := "0123456789012345678901234567890"

/-! Helper lemmas shared by the claim theorems. -/

/-- Unfolding lemma for one cycle of the poll loop. -/
theorem dstat_job_producer_succ (provider : Nat → List Task) (fo : Bool)
    (pi : Nat) (rf : Bool) (fuel cycle : Nat) :
    dstat_job_producer provider fo pi rf (fuel + 1) cycle
      = (provider cycle).map (formatTask rf fo) ::
        (if (pi != 0) && someJobRunning (provider cycle) then
          dstat_job_producer provider fo pi rf fuel (cycle + 1)
        else []) := rfl

/-- With at least one unit of fuel the producer yields at least one batch. -/
theorem dstat_job_producer_ne_nil (provider : Nat → List Task) (fo : Bool)
    (pi : Nat) (rf : Bool) (fuel cycle : Nat) :
    dstat_job_producer provider fo pi rf (fuel + 1) cycle ≠ [] := by
  rw [dstat_job_producer_succ]
  exact List.cons_ne_nil _ _

/-- When the insertion for a column happens, the inserted pair is the column
key and its resolved value. -/
theorem includeCol_eq_some (task : Task) (c : RowSpec) (p : String × Value)
    (h : includeCol task c = some p) :
    p = (c.key, task.get_field c.key c.default_value) := by
  simp only [includeCol] at h
  split at h
  · exact (Option.some.inj h).symm
  · cases h

/-- Looking up a key absent from the column list, in the projected row built
from that list, finds nothing. -/
theorem lookup_filterMap_includeCol_not_mem (task : Task) (k : String) :
    ∀ cols : List RowSpec, k ∉ cols.map RowSpec.key →
      (cols.filterMap (includeCol task)).lookup k = Option.none := by
  intro cols
  induction cols with
  | nil => intro _; rfl
  | cons c rest ih =>
      intro hk
      have hck : ¬(k = c.key) := fun he => hk (by simp [he])
      have hrest : k ∉ rest.map RowSpec.key := fun hm => hk (by simp [hm])
      cases hic : includeCol task c with
      | none =>
          rw [List.filterMap_cons, hic]
          exact ih hrest
      | some p =>
          have hp := includeCol_eq_some task c p hic
          rw [List.filterMap_cons, hic, hp]
          simp only [List.lookup, beq_eq_false_iff_ne.mpr hck]
          exact ih hrest

/-- Looking up the key of a column of a nodup column list, in the projected
row built from that list, yields exactly the value inserted for that column
(or nothing, when the column was skipped). -/
theorem lookup_filterMap_includeCol (task : Task) :
    ∀ cols : List RowSpec, (cols.map RowSpec.key).Nodup →
      ∀ col ∈ cols,
        (cols.filterMap (includeCol task)).lookup col.key
          = Option.map Prod.snd (includeCol task col) := by
  intro cols
  induction cols with
  | nil => intro _ col hmem; cases hmem
  | cons c rest ih =>
      intro hnd col hmem
      rw [List.map_cons, List.nodup_cons] at hnd
      obtain ⟨hnotin, hnd'⟩ := hnd
      rcases List.mem_cons.mp hmem with he | hmem'
      · subst he
        cases hic : includeCol task col with
        | none =>
            rw [List.filterMap_cons, hic]
            simpa using lookup_filterMap_includeCol_not_mem task col.key rest hnotin
        | some p =>
            have hp := includeCol_eq_some task col p hic
            rw [List.filterMap_cons, hic, hp]
            simp [List.lookup]
      · have hkne : ¬(col.key = c.key) := by
          intro he
          exact hnotin (he ▸ List.mem_map_of_mem RowSpec.key hmem')
        cases hic : includeCol task c with
        | none =>
            rw [List.filterMap_cons, hic]
            exact ih hnd' col hmem'
        | some p =>
            have hp := includeCol_eq_some task c p hic
            rw [List.filterMap_cons, hic, hp]
            simp only [List.lookup, beq_eq_false_iff_ne.mpr hkne]
            exact ih hnd' col hmem'

/-! Claim theorems. -/

/-- C7: the YAML string presenter represents a string with the literal block
scalar style exactly when the string contains an embedded newline, with the
default style otherwise, and always represents the string text itself,
unchanged, under the standard string tag. -/
theorem string_presenter_literal_iff_newline (s : String) :
    ((YamlOutput.string_presenter s).style = ScalarStyle.literal
      ↔ s.contains newlineChar = true)
    ∧ ((YamlOutput.string_presenter s).style = ScalarStyle.plain
      ↔ s.contains newlineChar = false)
    ∧ (YamlOutput.string_presenter s).text = s
    ∧ (YamlOutput.string_presenter s).tag = "tag:yaml.org,2002:str" := by
  unfold YamlOutput.string_presenter
  by_cases h : s.contains newlineChar <;> simp [h]

/-- C3 (code bug): the render loop of main prints one single-row table per
task, not one table per poll cycle: a single cycle whose batch holds two
tasks leads to two print_table calls, each with a one-row table. -/
theorem main_prints_one_table_per_task :
    main_printed_tables (TextOutput.prepare_output false)
        [[[("job-name", Value.str "a")], [("job-name", Value.str "b")]]]
      = [[[("Job Name", Value.str "a")]], [[("Job Name", Value.str "b")]]]
    ∧ (main_printed_tables (TextOutput.prepare_output false)
        [[[("job-name", Value.str "a")], [("job-name", Value.str "b")]]]).length = 2 := by
  exact ⟨rfl, rfl⟩

/-- C9: with full verbosity the projected row's keys are exactly the fourteen
non-optional full columns, with task-id inserted after job-name exactly when
the task's task-id value is truthy; with short verbosity they are exactly
job-name, last-update and status-message, with task-id under the same
condition. -/
theorem prepare_row_key_list (task : Task) :
    ((prepare_row task true).map Prod.fst
      = if (task.get_field "task-id" Value.none).truthy then
          ["job-name", "task-id", "last-update", "job-id", "user-id", "status",
           "status-detail", "create-time", "end-time", "internal-id", "logging",
           "inputs", "outputs", "envs", "labels"]
        else
          ["job-name", "last-update", "job-id", "user-id", "status",
           "status-detail", "create-time", "end-time", "internal-id", "logging",
           "inputs", "outputs", "envs", "labels"])
    ∧ ((prepare_row task false).map Prod.fst
      = if (task.get_field "task-id" Value.none).truthy then
          ["job-name", "task-id", "last-update", "status-message"]
        else
          ["job-name", "last-update", "status-message"]) := by
  cases h : (task.get_field "task-id" Value.none).truthy <;>
    simp [prepare_row, activeColumns, full_columns, short_columns, default_columns,
          includeCol, h]

/-- C1: after yielding a cycle's batch, the poll loop yields no further batch
exactly when poll_interval is zero or no task of that cycle's batch is
RUNNING; and when the provider returns an empty task list, the producer
yields exactly one batch, the empty one, whatever poll_interval is. -/
theorem producer_termination_iff (provider : Nat → List Task) (fo : Bool)
    (pi : Nat) (rf : Bool) (fuel cycle : Nat) :
    ((dstat_job_producer provider fo pi rf (fuel + 2) cycle).length = 1
      ↔ (pi = 0 ∨ someJobRunning (provider cycle) = false))
    ∧ (provider cycle = [] →
        dstat_job_producer provider fo pi rf (fuel + 2) cycle
          = [([] : List FormattedTask)]) := by
  constructor
  · rw [show fuel + 2 = (fuel + 1) + 1 from rfl, dstat_job_producer_succ]
    by_cases hc : ((pi != 0) && someJobRunning (provider cycle)) = true
    · rw [if_pos hc]
      rw [Bool.and_eq_true, bne_iff_ne] at hc
      constructor
      · intro hlen
        exfalso
        have hne := dstat_job_producer_ne_nil provider fo pi rf fuel (cycle + 1)
        have : (dstat_job_producer provider fo pi rf (fuel + 1) (cycle + 1)).length = 0 := by
          simpa using hlen
        exact hne (List.length_eq_zero.mp this)
      · intro hor
        rcases hor with h0 | hnr
        · exact absurd h0 hc.1
        · rw [hnr] at hc
          cases hc.2
    · rw [if_neg hc]
      constructor
      · intro _
        rw [Bool.and_eq_true, not_and_or] at hc
        rcases hc with h1 | h2
        · left
          by_cases hp : pi = 0
          · exact hp
          · exact absurd (bne_iff_ne.mpr hp) h1
        · right
          exact Bool.of_not_eq_true h2
      · intro _
        rfl
  · intro he
    rw [show fuel + 2 = (fuel + 1) + 1 from rfl, dstat_job_producer_succ, he]
    simp [someJobRunning]

/-- C1 witness: a provider stub returning the empty task list makes the
producer yield exactly the one empty batch, here with poll_interval 7. -/
theorem producer_termination_iff_witness :
    dstat_job_producer (fun _ => []) false 7 false 2 0 = [([] : List FormattedTask)] :=
  (producer_termination_iff (fun _ => []) false 7 false 0 0).2 rfl

/-- C6: with the two-cycle stub (one RUNNING task first, then one SUCCESS
task for the same job) and a nonzero poll interval, the producer yields
exactly two batches and then stops, for any fuel and any formatting flags. -/
theorem producer_two_cycle_stub_yields_two_batches (pi : Nat) (rf fo : Bool)
    (fuel : Nat) (h : pi ≠ 0) :
    (dstat_job_producer two_cycle_stub fo pi rf (fuel + 2) 0).length = 2 := by
  have hb : (pi != 0) = true := bne_iff_ne.mpr h
  have h1 : someJobRunning (two_cycle_stub 0) = true := rfl
  have h2 : someJobRunning (two_cycle_stub 1) = false := rfl
  rw [show fuel + 2 = (fuel + 1) + 1 from rfl, dstat_job_producer_succ,
      dstat_job_producer_succ, h1, h2, hb]
  simp

/-- C6 witness: the two-cycle stub with poll interval 10 yields exactly two
batches. -/
theorem producer_two_cycle_stub_yields_two_batches_witness :
    (dstat_job_producer two_cycle_stub false 10 false 2 0).length = 2 :=
  producer_two_cycle_stub_yields_two_batches 10 false false 0 (by decide)

/-- C8: the number of batches the producer yields, and the size of every
batch, are the same for all values of raw_format and full_output: the
decision to continue or stop depends only on poll_interval and on the tasks'
RUNNING status, never on the formatted row contents. -/
theorem producer_shape_independent_of_format (provider : Nat → List Task)
    (pi : Nat) (rf1 fo1 rf2 fo2 : Bool) :
    ∀ fuel cycle : Nat,
      ((dstat_job_producer provider fo1 pi rf1 fuel cycle).map List.length
        = (dstat_job_producer provider fo2 pi rf2 fuel cycle).map List.length)
      ∧ (dstat_job_producer provider fo1 pi rf1 fuel cycle).length
        = (dstat_job_producer provider fo2 pi rf2 fuel cycle).length := by
  intro fuel
  induction fuel with
  | zero => intro cycle; exact ⟨rfl, rfl⟩
  | succ n ih =>
      intro cycle
      rw [dstat_job_producer_succ, dstat_job_producer_succ]
      by_cases hc : ((pi != 0) && someJobRunning (provider cycle)) = true
      · rw [if_pos hc, if_pos hc]
        obtain ⟨ihmap, ihlen⟩ := ih (cycle + 1)
        constructor
        · simp [ihmap]
        · simp [ihlen]
      · rw [if_neg hc, if_neg hc]
        constructor
        · simp
        · simp

/-- C2: a column of the active set appears in the projected row exactly when
it is non-optional or its resolved value is truthy; a non-optional column is
always present, and when the task lacks its field it is present with the
column's declared default value. -/
theorem prepare_row_inclusion_policy (task : Task) (full : Bool) (col : RowSpec)
    (hmem : col ∈ activeColumns full) :
    ((prepare_row task full).lookup col.key
      = if !col.optional || (task.get_field col.key col.default_value).truthy
        then some (task.get_field col.key col.default_value)
        else Option.none)
    ∧ (col.optional = false →
        (prepare_row task full).lookup col.key
          = some (task.get_field col.key col.default_value))
    ∧ (col.optional = false → task.fields.lookup col.key = Option.none →
        (prepare_row task full).lookup col.key = some col.default_value) := by
  have hnd : ((activeColumns full).map RowSpec.key).Nodup := by
    cases full <;> decide
  have hmain := lookup_filterMap_includeCol task (activeColumns full) hnd col hmem
  have hinc : Option.map Prod.snd (includeCol task col)
      = if !col.optional || (task.get_field col.key col.default_value).truthy
        then some (task.get_field col.key col.default_value)
        else Option.none := by
    simp only [includeCol]
    split <;> rfl
  refine ⟨?_, ?_, ?_⟩
  · rw [prepare_row]
    exact hmain.trans hinc
  · intro hopt
    rw [prepare_row, hmain.trans hinc, hopt]
    simp
  · intro hopt habsent
    have hdef : task.get_field col.key col.default_value = col.default_value := by
      rw [Task.get_field, habsent]
    rw [prepare_row, hmain.trans hinc, hopt, hdef]
    simp

/-- C2 witness: a task with no fields at all still projects, in full mode,
the non-optional end-time column with its declared default "NA". -/
theorem prepare_row_inclusion_policy_witness :
    (prepare_row ⟨[], []⟩ true).lookup "end-time" = some (Value.str "NA") :=
  (prepare_row_inclusion_policy ⟨[], []⟩ true ⟨"end-time", false, Value.str "NA"⟩
    (by decide)).2.2 rfl rfl

/-- C4 counterexample: the text formatter leaves a 31-character status-detail
value unmodified even with full false; its rendered value is not the first
27 characters plus an ellipsis. -/
theorem status_detail_not_truncated_cex :
    30 < long_detail.length
    ∧ TextOutput.prepare_output false [("status-detail", Value.str long_detail)]
        = [("Status-details", Value.str long_detail)]
    ∧ Value.str long_detail ≠ Value.str (long_detail.take 27 ++ "...") := by
  refine ⟨by decide, rfl, by decide⟩

/-- C4 (amended): in the text formatter it is the status-message value,
rendered under the "Status" label, that is truncated: longer than 30
characters it renders as its first 27 characters plus "..." when full is
false and unmodified when full is true, while a status-detail value is
rendered unmodified for either flag. -/
theorem status_message_truncation (s : String) (h : 30 < s.length) :
    TextOutput.prepare_output false [("status-message", Value.str s)]
      = [("Status", Value.str (s.take 27 ++ "..."))]
    ∧ TextOutput.prepare_output true [("status-message", Value.str s)]
      = [("Status", Value.str s)]
    ∧ (∀ full : Bool,
        TextOutput.prepare_output full [("status-detail", Value.str s)]
          = [("Status-details", Value.str s)]) := by
  have hne : ¬(s = "") := by
    intro he
    rw [he] at h
    exact absurd h (by decide)
  have hgt : s.length > TextOutput.MAX_ERROR_MESSAGE_LENGTH := h
  have htrim : TextOutput.trim_display_field s TextOutput.MAX_ERROR_MESSAGE_LENGTH
      = s.take 27 ++ "..." := by
    rw [TextOutput.trim_display_field, if_neg hne, if_pos hgt]
    norm_num [TextOutput.MAX_ERROR_MESSAGE_LENGTH]
  refine ⟨?_, ?_, ?_⟩
  · simp [TextOutput.prepare_output, TextOutput.column_map, TextOutput.format_status,
          List.lookup, htrim]
  · simp [TextOutput.prepare_output, TextOutput.column_map, TextOutput.format_status,
          List.lookup]
  · intro full
    cases full <;>
      simp [TextOutput.prepare_output, TextOutput.column_map, List.lookup]

/-- C4 witness: the 31-character text renders under "Status" as its first 27
characters plus an ellipsis when full is false. -/
theorem status_message_truncation_witness :
    TextOutput.prepare_output false [("status-message", Value.str long_detail)]
      = [("Status", Value.str (long_detail.take 27 ++ "..."))] :=
  (status_message_truncation long_detail (by decide)).1

/-- C10: trim_display_field returns the empty string on a falsy value,
returns the value unchanged when its length is at most max_length, and
otherwise returns the first max_length - 3 characters followed by "...",
a result of exactly max_length characters; the result never exceeds the
larger of the value's length and max_length. -/
theorem trim_display_field_spec (value : String) (max_length : Nat)
    (h : 4 ≤ max_length) :
    (value = "" → TextOutput.trim_display_field value max_length = "")
    ∧ (value.length ≤ max_length →
        TextOutput.trim_display_field value max_length = value)
    ∧ (max_length < value.length →
        TextOutput.trim_display_field value max_length
          = value.take (max_length - 3) ++ "..."
        ∧ (TextOutput.trim_display_field value max_length).length = max_length)
    ∧ (TextOutput.trim_display_field value max_length).length
        ≤ max value.length max_length := by
  have hlen_take : ∀ n : Nat, (value.take n).length = min n value.length := by
    intro n
    have h1 : (value.take n).data = value.data.take n := String.data_take value n
    have h2 : (value.take n).length = (value.take n).data.length := rfl
    have h3 : value.length = value.data.length := rfl
    rw [h2, h1, List.length_take, h3]
  by_cases h0 : value = ""
  · subst h0
    have hz : ("" : String).length = 0 := rfl
    refine ⟨fun _ => rfl, fun _ => rfl, fun hlt => ?_, ?_⟩
    · rw [hz] at hlt
      omega
    · have he : TextOutput.trim_display_field "" max_length = "" := rfl
      rw [he, hz]
      exact Nat.zero_le _
  · by_cases h1 : value.length > max_length
    · have heq : TextOutput.trim_display_field value max_length
          = value.take (max_length - 3) ++ "..." := by
        rw [TextOutput.trim_display_field, if_neg h0, if_pos h1]
      have h3 : ("..." : String).length = 3 := rfl
      have hlen : (TextOutput.trim_display_field value max_length).length = max_length := by
        rw [heq, String.length_append, hlen_take, h3]
        omega
      refine ⟨fun hc => absurd hc h0, fun hc => absurd hc (by omega),
              fun _ => ⟨heq, hlen⟩, ?_⟩
      rw [hlen]
      exact le_max_right _ _
    · have heq : TextOutput.trim_display_field value max_length = value := by
        rw [TextOutput.trim_display_field, if_neg h0, if_neg h1]
      refine ⟨fun hc => absurd hc h0, fun _ => heq, fun hlt => absurd hlt (by omega), ?_⟩
      rw [heq]
      exact le_max_left _ _

/-- C10 witness: trimming the 31-character text to 30 keeps 27 characters
plus the ellipsis, exactly 30 characters. -/
theorem trim_display_field_spec_witness :
    TextOutput.trim_display_field long_detail 30
      = long_detail.take 27 ++ "..."
    ∧ (TextOutput.trim_display_field long_detail 30).length = 30 :=
  (trim_display_field_spec long_detail 30 (by decide)).2.2.1 (by decide)

end Dstat
